import Mathlib

/-!
Verification of the non-transitive dice game (src/dicegame.py) against its
natural-language specification.  The Python program is shallowly embedded:
pure helpers become Lean functions, the interactive steps become functions
from an injected randomness stream and an input stream to an event trace
plus a result, and Python failures (IndexError, sys.exit) become Option /
explicit trace events.
-/

/-- Embeds Python str.isdigit for the ASCII inputs the game reads:
true iff the string is nonempty and every character is a decimal digit. -/
def pyIsDigit (s : String) : Bool :=
  !s.isEmpty && s.toList.all Char.isDigit

/-- Embeds Python int(s) on a digit string: decimal value of the digits. -/
def pyParseNat (s : String) : Nat :=
  s.toList.foldl (fun acc c => acc * 10 + (c.toNat - 48)) 0

/-- Embeds str(number).encode(): the ASCII byte sequence of the decimal
representation of the number, as fed to the keyed digest. -/
def encodeNum (n : Nat) : List Nat :=
  (Nat.toDigits 10 n).map Char.toNat

/-- Modelled from the spec: the keyed digest is HMAC-SHA3-256 from the
Python standard library (hmac, hashlib), which is not part of src/.  The
spec requires only that it is a deterministic keyed cryptographic digest of
the encoded value under the key; it is modelled here as an executable
deterministic mixing function over the key and the message bytes. -/
def keyedDigest (key : Nat) (msg : List Nat) : Nat :=
  msg.foldl (fun acc b => (acc * 131 + b + 1) % 2 ^ 64) (key % 2 ^ 64)

/-- Embeds FairRandom.generate_secure_random(limit) with the randomness
injected: the source draws key = secrets.token_bytes(32) and
number = secrets.randbelow(limit), then returns
(number, key, hmac.new(key, str(number).encode(), sha3_256)).  Here the
drawn key and number are parameters; the limit parameter is kept from the
source signature (the draw number < limit is a hypothesis at use sites). -/
def generate_secure_random (limit key number : Nat) : Nat × Nat × Nat :=
  let _ := limit
  (number, key, keyedDigest key (encodeNum number))

/-- Embeds FairRandom.compute_modular_result: (user + computer) % limit. -/
def compute_modular_result (user_choice computer_choice limit : Nat) : Nat :=
  (user_choice + computer_choice) % limit

/-- A dice: the ordered list of face values, as stored by Dice.__init__. -/
structure Dice where
  values : List Int
  deriving DecidableEq, Repr

/-- Embeds Python list indexing values[i] (source line 31): a nonnegative
index reads position i and raises IndexError (none) when i is at least the
length; a negative index reads position length + i and raises IndexError
(none) when length + i is still negative. -/
def pyListGet (xs : List Int) (i : Int) : Option Int :=
  if 0 ≤ i then xs[i.toNat]?
  else if 0 ≤ i + xs.length then xs[(i + xs.length).toNat]?
  else none

/-- Embeds Dice.roll: return self.values[face_index] with Python list
indexing semantics; none models the IndexError case. -/
def Dice.roll (d : Dice) (face_index : Int) : Option Int :=
  pyListGet d.values face_index

/-- Embeds Dice.__init__: every face value must be a nonnegative integer,
otherwise ValueError is raised (the error case). -/
def mkDice (values : List Int) : Except String Dice :=
  if values.all (fun v => decide (0 ≤ v)) then Except.ok { values := values }
  else Except.error "Invalid dice face value"

/-- Embeds the list comprehension of DiceGame.__init__ line 64: construct
each Dice in order; the first ValueError aborts construction. -/
def mkDiceList : List (List Int) → Except String (List Dice)
  | [] => Except.ok []
  | d :: rest =>
    match mkDice d with
    | Except.error e => Except.error e
    | Except.ok dice =>
      match mkDiceList rest with
      | Except.error e => Except.error e
      | Except.ok more => Except.ok (dice :: more)

/-- Embeds DiceGame.__init__ (lines 57-67) on the already-split integer
lists (the comma splitting and int() parsing of the argv strings are the
step that produces the List Int arguments): fewer than 3 dice is an error,
then each dice is constructed, a negative face value being an error.  No
other validation is performed. -/
def initGame (dice_sets : List (List Int)) : Except String (List Dice) :=
  if dice_sets.length < 3 then
    Except.error "You must specify at least 3 dice configurations."
  else mkDiceList dice_sets

/-- True iff an Except value is ok (construction succeeded). -/
def isOkE {α : Type} (e : Except String α) : Bool :=
  match e with
  | Except.ok _ => true
  | Except.error _ => false

/-- Observable events of one run of an interactive step, in program order:
the published range and commitment tag, the invalid-input diagnostic, the
accepted (fixed) user contribution, the reveal of the secret key with the
committed value, the announced combined result, a digest recomputation and
comparison (the verification act the spec demands), and the exit action. -/
inductive Event where
  | rangeTagPublished (modulo : Nat) (tag : Nat)
  | invalidPrompt
  | contributionFixed (value : Nat)
  | keyRevealed (key : Nat) (value : Nat)
  | resultAnnounced (index : Nat)
  | verificationChecked
  | exited
  deriving DecidableEq, Repr

/-- Outcome of determine_first_turn. -/
inductive FirstOutcome where
  | userFirst
  | computerFirst
  | exitGame
  | incomplete
  deriving DecidableEq, Repr

/-- Classification of one raw input line at the turn-order prompt
(source lines 81-90): the literal string 2 exits; a digit string whose
value is in [0, 1] is accepted; anything else is invalid and retried. -/
inductive InputAction where
  | exitReq
  | invalid
  | accepted (value : Nat)
  deriving DecidableEq, Repr

/-- Embeds the input handling of determine_first_turn lines 83-90. -/
def guess_action (s : String) : InputAction :=
  if s = "2" then InputAction.exitReq
  else if pyIsDigit s && (pyParseNat s == 0 || pyParseNat s == 1) then
    InputAction.accepted (pyParseNat s)
  else InputAction.invalid

/-- Embeds the input handling of roll_dice lines 112-121: the literal
string str(modulo) exits; a digit string whose value is in range(modulo)
is accepted; anything else is invalid and retried. -/
def roll_action (modulo : Nat) (s : String) : InputAction :=
  if s = toString modulo then InputAction.exitReq
  else if pyIsDigit s && decide (pyParseNat s < modulo) then
    InputAction.accepted (pyParseNat s)
  else InputAction.invalid

/-- Embeds DiceGame.determine_first_turn (source lines 72-98) with the
randomness injected: each recursive attempt consumes one (number, key)
draw from the stream (the source calls generate_secure_random(2) afresh on
every retry) and one input line.  The trace records the printed events in
program order: the range/HMAC line, then for an invalid input the
diagnostic and the recursive retry, and for an accepted guess the fixed
contribution followed by the reveal of key and number; the outcome is the
direct comparison of the guess with the drawn number. -/
def determine_first_turn : List (Nat × Nat) → List String → List Event × FirstOutcome
  | [], _ => ([], FirstOutcome.incomplete)
  | (num, key) :: draws, inputs =>
    let tag := (generate_secure_random 2 key num).2.2
    match inputs with
    | [] => ([Event.rangeTagPublished 2 tag], FirstOutcome.incomplete)
    | g :: rest =>
      match guess_action g with
      | InputAction.exitReq =>
        ([Event.rangeTagPublished 2 tag, Event.exited], FirstOutcome.exitGame)
      | InputAction.invalid =>
        let next := determine_first_turn draws rest
        (Event.rangeTagPublished 2 tag :: Event.invalidPrompt :: next.1, next.2)
      | InputAction.accepted gu =>
        ([Event.rangeTagPublished 2 tag, Event.contributionFixed gu,
          Event.keyRevealed key num],
         if gu = num then FirstOutcome.userFirst else FirstOutcome.computerFirst)

/-- Embeds DiceGame.roll_dice (source lines 100-126) with the randomness
injected, for the player whose stored dice index is dice_choice: each
attempt draws (face, key), publishes the range and tag, reads one input
line; an accepted contribution is combined with the committed face by
compute_modular_result and the key is revealed, then the result index is
announced and the throw is self.dice[dice_choice].roll(final_index); none
models both an exit and the IndexError crash (the trace tells them apart). -/
def roll_dice (dice : List Dice) (dice_choice : Nat) (modulo : Nat) :
    List (Nat × Nat) → List String → List Event × Option Int
  | [], _ => ([], none)
  | (face, key) :: draws, inputs =>
    let tag := (generate_secure_random modulo key face).2.2
    match inputs with
    | [] => ([Event.rangeTagPublished modulo tag], none)
    | s :: rest =>
      match roll_action modulo s with
      | InputAction.exitReq =>
        ([Event.rangeTagPublished modulo tag, Event.exited], none)
      | InputAction.invalid =>
        let next := roll_dice dice dice_choice modulo draws rest
        (Event.rangeTagPublished modulo tag :: Event.invalidPrompt :: next.1, next.2)
      | InputAction.accepted user_add =>
        let final_index := compute_modular_result user_add face modulo
        ([Event.rangeTagPublished modulo tag, Event.contributionFixed user_add,
          Event.keyRevealed key face, Event.resultAnnounced final_index],
         (dice[dice_choice]?).bind (fun d => d.roll (final_index : Int)))

/-- Embeds the two roll_dice calls of play_round (source lines 144-145):
play_round passes no modulo argument, so the default modulo = 6 of the
roll_dice signature (line 100) is always used. -/
def play_round_roll (dice : List Dice) (dice_choice : Nat)
    (draws : List (Nat × Nat)) (inputs : List String) : List Event × Option Int :=
  roll_dice dice dice_choice 6 draws inputs

/-- Embeds random.choice over a list of dice indices, with the random
selection injected as sel: returns the element at position sel modulo the
length, a member of the list whenever the list is nonempty. -/
def randomChoice (l : List Nat) (sel : Nat) : Option Nat :=
  l[sel % l.length]?

/-- Embeds Player.choose_dice (source lines 40-52) reading from the input
stream: a digit string whose value is in range(num_options) is stored as
the player's dice_choice (an index into the DISPLAYED list); any other
input prints a diagnostic and retries with the remaining inputs. -/
def choose_dice (num_options : Nat) : List String → Option Nat
  | [] => none
  | s :: rest =>
    if pyIsDigit s && decide (pyParseNat s < num_options) then some (pyParseNat s)
    else choose_dice num_options rest

/-- Embeds the dice-assignment part of play_round (source lines 131-142)
for a pool of n dice, returning the stored pair
(computer.dice_choice, user.dice_choice) that the later roll_dice calls
index into self.dice with.  Computer first: the computer draws an index
from range(n), that index is removed, and the user chooses from the
REDUCED displayed list (so the stored user index is an index into the
reduced list).  User first: the user chooses from the full list and the
computer draws from the remaining full-pool indices. -/
def play_round_assign (n : Nat) (computer_first : Bool) (sel : Nat)
    (inputs : List String) : Option (Nat × Nat) :=
  if computer_first then
    match randomChoice (List.range n) sel with
    | none => none
    | some c =>
      let available := (List.range n).filter (fun i => i != c)
      match choose_dice available.length inputs with
      | none => none
      | some u => some (c, u)
  else
    match choose_dice n inputs with
    | none => none
    | some u =>
      let available := (List.range n).filter (fun i => i != u)
      match randomChoice available sel with
      | none => none
      | some c => some (c, u)

/-- The full-pool index of the die DISPLAYED to the user at reduced-list
position u when the computer moved first and took index c (source lines
135-137: the displayed list is the full pool with the computer's index
removed, and choose_dice prints available_dice[dice_choice] as the chosen
die). -/
def user_displayed_die (n c u : Nat) : Option Nat :=
  ((List.range n).filter (fun i => i != c))[u]?

/-- True of the digest-recomputation event only. -/
def isVerificationEvent : Event → Bool
  | Event.verificationChecked => true
  | _ => false

/-- True iff the trace contains a digest recomputation and comparison. -/
def hasVerificationCheck (tr : List Event) : Bool :=
  tr.any isVerificationEvent

/-- Checks the commit-reveal phase ordering over a trace: every reveal of
a secret key is immediately preceded by a fixed contribution which is
immediately preceded by the published commitment tag; a reveal in any
other position fails the check. -/
def revealWellOrdered : List Event → Bool
  | Event.rangeTagPublished _ _ :: Event.contributionFixed _ ::
      Event.keyRevealed _ _ :: rest => revealWellOrdered rest
  | Event.keyRevealed _ _ :: _ => false
  | _ :: rest => revealWellOrdered rest
  | [] => true

/-- Extracts the modulus announced with each published commitment tag. -/
def announcedModuli (tr : List Event) : List Nat :=
  tr.filterMap (fun e =>
    match e with
    | Event.rangeTagPublished m _ => some m
    | _ => none)

/-- The three 3-faced dice of the C2 configuration. -/
def threeFaceDice : List Dice :=
  [{ values := [1, 2, 3] }, { values := [4, 5, 6] }, { values := [7, 8, 9] }]

/-- A pool whose dice are distinguishable by their face values: every face
of die 0 is 10, of die 1 is 20, of die 2 is 30. -/
def constPool : List Dice :=
  [{ values := [10, 10, 10, 10, 10, 10] },
   { values := [20, 20, 20, 20, 20, 20] },
   { values := [30, 30, 30, 30, 30, 30] }]

/-- C1: falsified by execution.  With 3 dice and the computer moving first,
the computer draws full-pool index 0; the user enters 0 at the reduced
2-option menu and is shown die 1 as their choice, but the stored pair of
dice indices is (0, 0): both later rolls index self.dice at 0, so the
user's throw (10) is a face of the computer's die 0, not of the displayed
die 1 (all of whose faces are 20).  The two dice used are not distinct. -/
theorem C1_assign_bug :
    play_round_assign 3 true 0 ["0"] = some (0, 0)
    ∧ user_displayed_die 3 0 0 = some 1
    ∧ (play_round_roll constPool 0 [(0, 5)] ["0"]).2 = some 10
    ∧ constPool.map (fun d => d.values) =
        [[10, 10, 10, 10, 10, 10], [20, 20, 20, 20, 20, 20], [30, 30, 30, 30, 30, 30]] :=
  ⟨rfl, rfl, rfl, rfl⟩

/-- C2: falsified by execution.  The configuration of three 3-faced dice
is accepted at startup, yet the roll exchange run by play_round publishes
and validates against modulus 6 (the roll_dice default; play_round passes
no modulus): the user contribution 5 is accepted, the combined index is
(5 + 5) % 6 = 4, and indexing the 3-face die at 4 crashes (IndexError,
modelled as none).  The exchange modulus 6 differs from the face count 3. -/
theorem C2_modulus_bug :
    initGame [[1, 2, 3], [4, 5, 6], [7, 8, 9]] = Except.ok threeFaceDice
    ∧ (play_round_roll threeFaceDice 0 [(5, 99)] ["5"]).1 =
        [Event.rangeTagPublished 6 (keyedDigest 99 (encodeNum 5)),
         Event.contributionFixed 5, Event.keyRevealed 99 5, Event.resultAnnounced 4]
    ∧ (play_round_roll threeFaceDice 0 [(5, 99)] ["5"]).2 = none
    ∧ threeFaceDice.map (fun d => d.values.length) = [3, 3, 3] :=
  ⟨rfl, rfl, rfl, rfl⟩

/-- C5 counterexample: a configuration whose three dice have lengths 2, 3
and 4 (mismatched face counts) is accepted by the constructor; no
configuration error is raised. -/
theorem C5_mismatched_lengths_accepted :
    isOkE (initGame [[1, 2], [1, 2, 3], [1, 2, 3, 4]]) = true
    ∧ [[1, 2], [1, 2, 3], [1, 2, 3, 4]].map List.length = [2, 3, 4] :=
  ⟨rfl, rfl⟩

/-- C6 counterexample: the claim says roll fails for every negative
face_index, but Python negative indexing makes roll(-1) on a 6-face die
return the last face value 9 without error. -/
theorem C6_negative_index_succeeds :
    Dice.roll { values := [2, 2, 4, 4, 9, 9] } (-1) = some 9 :=
  rfl

/-- C8: compute_modular_result returns exactly (a + b) % modulus, and for
a positive modulus the result lies below the modulus. -/
theorem C8_combine_correct (a b m : Nat) (hm : 0 < m) (ha : a < m) (hb : b < m) :
    compute_modular_result a b m = (a + b) % m ∧ compute_modular_result a b m < m :=
  ⟨rfl, Nat.mod_lt _ hm⟩

/-- C8 witness: the combiner at a = 4, b = 5, modulus = 6. -/
theorem C8_combine_correct_witness :
    compute_modular_result 4 5 6 = (4 + 5) % 6 ∧ compute_modular_result 4 5 6 < 6 :=
  C8_combine_correct 4 5 6 (by decide) (by decide) (by decide)

/-- C9: for every (number, key, tag) triple produced by the commitment
engine from a draw number < limit, the returned number and key are the
drawn ones and recomputing the keyed digest of the returned number under
the returned key yields exactly the published tag. -/
theorem C9_commit_reveal_roundtrip (limit key number : Nat) (h : number < limit) :
    (generate_secure_random limit key number).1 = number
    ∧ (generate_secure_random limit key number).2.1 = key
    ∧ keyedDigest (generate_secure_random limit key number).2.1
        (encodeNum (generate_secure_random limit key number).1) =
        (generate_secure_random limit key number).2.2 :=
  ⟨rfl, rfl, rfl⟩

/-- C9 witness: the round trip at limit = 6, key = 12345, number = 3. -/
theorem C9_commit_reveal_roundtrip_witness :
    (generate_secure_random 6 12345 3).1 = 3
    ∧ (generate_secure_random 6 12345 3).2.1 = 12345
    ∧ keyedDigest (generate_secure_random 6 12345 3).2.1
        (encodeNum (generate_secure_random 6 12345 3).1) =
        (generate_secure_random 6 12345 3).2.2 :=
  C9_commit_reveal_roundtrip 6 12345 3 (by decide)

/-- C10: the displayed Help selections are handled exactly like any other
invalid input.  At the turn-order prompt the input 3, and at a play_round
roll prompt (modulus 6) the input 7, each produce the same run as a
generic invalid input (here 99); the step emits the invalid-selection
diagnostic and retries with the remaining stream, the final outcome being
that of the retry; no other event (in particular no help display) occurs. -/
theorem C10_help_is_invalid_input (num key : Nat) (draws : List (Nat × Nat))
    (rest : List String) (dice : List Dice) (choice : Nat) :
    determine_first_turn ((num, key) :: draws) ("3" :: rest) =
      determine_first_turn ((num, key) :: draws) ("99" :: rest)
    ∧ (determine_first_turn ((num, key) :: draws) ("3" :: rest)).1 =
        Event.rangeTagPublished 2 (keyedDigest key (encodeNum num)) ::
          Event.invalidPrompt :: (determine_first_turn draws rest).1
    ∧ (determine_first_turn ((num, key) :: draws) ("3" :: rest)).2 =
        (determine_first_turn draws rest).2
    ∧ play_round_roll dice choice ((num, key) :: draws) ("7" :: rest) =
        play_round_roll dice choice ((num, key) :: draws) ("99" :: rest)
    ∧ (play_round_roll dice choice ((num, key) :: draws) ("7" :: rest)).1 =
        Event.rangeTagPublished 6 (keyedDigest key (encodeNum num)) ::
          Event.invalidPrompt :: (play_round_roll dice choice draws rest).1
    ∧ (play_round_roll dice choice ((num, key) :: draws) ("7" :: rest)).2 =
        (play_round_roll dice choice draws rest).2 :=
  ⟨rfl, rfl, rfl, rfl, rfl, rfl⟩

/-- Peeling an attempt prefix (published tag, invalid diagnostic) off a
trace preserves the phase-order check. -/
theorem revealWellOrdered_invalid_attempt (m t : Nat) (tr : List Event) :
    revealWellOrdered (Event.rangeTagPublished m t :: Event.invalidPrompt :: tr) =
      revealWellOrdered tr :=
  rfl

/-- Any verification event in a cons trace is in the head or the tail. -/
theorem hasVerificationCheck_cons (e : Event) (tr : List Event) :
    hasVerificationCheck (e :: tr) = (isVerificationEvent e || hasVerificationCheck tr) :=
  rfl

/-- No run of the turn-order step ever records a digest recomputation. -/
theorem determine_first_turn_no_verify (draws : List (Nat × Nat)) :
    ∀ inputs, hasVerificationCheck (determine_first_turn draws inputs).1 = false := by
  induction draws with
  | nil => intro _; rfl
  | cons d tl ih =>
    obtain ⟨num, key⟩ := d
    intro inputs
    cases inputs with
    | nil => rfl
    | cons g rest =>
      cases hga : guess_action g with
      | exitReq => simp [determine_first_turn, hga, hasVerificationCheck, isVerificationEvent]
      | invalid =>
        simp only [determine_first_turn, hga]
        simp [hasVerificationCheck_cons, isVerificationEvent, ih rest]
      | accepted v =>
        simp [determine_first_turn, hga, hasVerificationCheck, isVerificationEvent]

/-- No run of the roll step ever records a digest recomputation. -/
theorem roll_dice_no_verify (dice : List Dice) (choice modulo : Nat)
    (draws : List (Nat × Nat)) :
    ∀ inputs, hasVerificationCheck (roll_dice dice choice modulo draws inputs).1 = false := by
  induction draws with
  | nil => intro _; rfl
  | cons d tl ih =>
    obtain ⟨face, key⟩ := d
    intro inputs
    cases inputs with
    | nil => rfl
    | cons s rest =>
      cases hra : roll_action modulo s with
      | exitReq => simp [roll_dice, hra, hasVerificationCheck, isVerificationEvent]
      | invalid =>
        simp only [roll_dice, hra]
        simp [hasVerificationCheck_cons, isVerificationEvent, ih rest]
      | accepted v =>
        simp [roll_dice, hra, hasVerificationCheck, isVerificationEvent]

/-- C3 counterexample: a complete turn-order exchange and a complete roll
exchange, run to the end: after the key is revealed the trace stops (turn
order) or goes straight to the announced result (roll); no recomputation
or comparison of the digest ever appears, and the step still produces its
outcome (userFirst, and the throw 20), so no mismatch could ever abort a
round. -/
theorem C3_no_recheck_after_reveal :
    (determine_first_turn [(0, 7)] ["0"]).1 =
      [Event.rangeTagPublished 2 (keyedDigest 7 (encodeNum 0)),
       Event.contributionFixed 0, Event.keyRevealed 7 0]
    ∧ (determine_first_turn [(0, 7)] ["0"]).2 = FirstOutcome.userFirst
    ∧ (play_round_roll constPool 1 [(2, 7)] ["1"]).1 =
      [Event.rangeTagPublished 6 (keyedDigest 7 (encodeNum 2)),
       Event.contributionFixed 1, Event.keyRevealed 7 2, Event.resultAnnounced 3]
    ∧ (play_round_roll constPool 1 [(2, 7)] ["1"]).2 = some 20 :=
  ⟨rfl, rfl, rfl, rfl⟩

/-- C3 amended: in every commit-reveal exchange the program reveals the
secret key and committed value for external audit only; it never
recomputes the keyed digest and never compares it with the published tag
(no verification event occurs in any trace of either exchange), so no
CommitmentVerificationFailure can arise in this program. -/
theorem C3_amended_no_verification (draws : List (Nat × Nat)) (inputs : List String)
    (dice : List Dice) (choice modulo : Nat) :
    hasVerificationCheck (determine_first_turn draws inputs).1 = false
    ∧ hasVerificationCheck (roll_dice dice choice modulo draws inputs).1 = false :=
  ⟨determine_first_turn_no_verify draws inputs,
   roll_dice_no_verify dice choice modulo draws inputs⟩

/-- Every run of the turn-order step is phase ordered. -/
theorem determine_first_turn_reveal_ordered (draws : List (Nat × Nat)) :
    ∀ inputs, revealWellOrdered (determine_first_turn draws inputs).1 = true := by
  induction draws with
  | nil => intro _; rfl
  | cons d tl ih =>
    obtain ⟨num, key⟩ := d
    intro inputs
    cases inputs with
    | nil => rfl
    | cons g rest =>
      cases hga : guess_action g with
      | exitReq => simp [determine_first_turn, hga, revealWellOrdered]
      | invalid =>
        simp only [determine_first_turn, hga]
        rw [revealWellOrdered_invalid_attempt]
        exact ih rest
      | accepted v => simp [determine_first_turn, hga, revealWellOrdered]

/-- Every run of the roll step is phase ordered. -/
theorem roll_dice_reveal_ordered (dice : List Dice) (choice modulo : Nat)
    (draws : List (Nat × Nat)) :
    ∀ inputs, revealWellOrdered (roll_dice dice choice modulo draws inputs).1 = true := by
  induction draws with
  | nil => intro _; rfl
  | cons d tl ih =>
    obtain ⟨face, key⟩ := d
    intro inputs
    cases inputs with
    | nil => rfl
    | cons s rest =>
      cases hra : roll_action modulo s with
      | exitReq => simp [roll_dice, hra, revealWellOrdered]
      | invalid =>
        simp only [roll_dice, hra]
        rw [revealWellOrdered_invalid_attempt]
        exact ih rest
      | accepted v => simp [roll_dice, hra, revealWellOrdered]

/-- C4: in every commit-reveal exchange of the program (turn order and
roll, any randomness and any input stream), every reveal of a secret key
in the trace is immediately preceded by the fixing of the counterpart's
contribution, itself immediately preceded by the publication of the
commitment tag for that attempt: the key is never disclosed before the
contribution is fixed. -/
theorem C4_phase_ordering (draws : List (Nat × Nat)) (inputs : List String)
    (dice : List Dice) (choice modulo : Nat) :
    revealWellOrdered (determine_first_turn draws inputs).1 = true
    ∧ revealWellOrdered (roll_dice dice choice modulo draws inputs).1 = true :=
  ⟨determine_first_turn_reveal_ordered draws inputs,
   roll_dice_reveal_ordered dice choice modulo draws inputs⟩

/-- Dice-list construction succeeds exactly when every face value of every
dice is nonnegative. -/
theorem mkDiceList_ok_iff (sets : List (List Int)) :
    isOkE (mkDiceList sets) = sets.all (fun d => d.all (fun v => decide (0 ≤ v))) := by
  induction sets with
  | nil => rfl
  | cons d tl ih =>
    cases hall : d.all (fun v => decide (0 ≤ v)) with
    | false => simp [mkDiceList, mkDice, hall, isOkE]
    | true =>
      cases hm : mkDiceList tl with
      | error e =>
        rw [hm] at ih
        simp [mkDiceList, mkDice, hall, hm, isOkE] at ih ⊢
        exact ih
      | ok more =>
        rw [hm] at ih
        simp [mkDiceList, mkDice, hall, hm, isOkE] at ih ⊢
        exact ih

/-- C5 amended: the constructor validates only the dice count (at least 3)
and the face values (nonnegative integers); it performs no face-count
comparison, so configurations with mismatched lengths are accepted
whenever those two checks pass. -/
theorem C5_amended_no_length_check (dice_sets : List (List Int)) :
    isOkE (initGame dice_sets) =
      (decide (3 ≤ dice_sets.length) &&
        dice_sets.all (fun d => d.all (fun v => decide (0 ≤ v)))) := by
  unfold initGame
  by_cases h : dice_sets.length < 3
  · simp [h, isOkE]
  · simp [h, mkDiceList_ok_iff]
    omega

/-- C6 amended: Dice.roll follows Python list indexing.  A face_index in
[0, length) returns the face at that position; a negative face_index in
[-length, 0) also succeeds, returning the face at position
length + face_index; only a face_index below -length or at least length
raises IndexError. -/
theorem C6_amended_python_indexing (values : List Int) (i : Int) :
    (0 ≤ i → i < values.length → Dice.roll { values := values } i = values[i.toNat]?)
    ∧ (i < 0 → -(values.length : Int) ≤ i →
        Dice.roll { values := values } i = values[(i + values.length).toNat]?)
    ∧ ((i < -(values.length : Int) ∨ (values.length : Int) ≤ i) →
        Dice.roll { values := values } i = none) := by
  refine ⟨?_, ?_, ?_⟩
  · intro h0 _
    simp [Dice.roll, pyListGet, h0]
  · intro hneg hge
    have h1 : ¬ (0 ≤ i) := not_le.mpr hneg
    have h2 : 0 ≤ i + (values.length : Int) := by omega
    simp [Dice.roll, pyListGet, h1, h2]
  · intro h
    rcases h with h | h
    · have h1 : ¬ (0 ≤ i) := by omega
      have h2 : ¬ (0 ≤ i + (values.length : Int)) := by omega
      simp [Dice.roll, pyListGet, h1, h2]
    · have h0 : 0 ≤ i := by omega
      simp [Dice.roll, pyListGet, h0]
      omega

/-- C6 witness: rolling the 6-face die at face_index -1 succeeds and reads
position 5 (the amended negative-index clause at a concrete input). -/
theorem C6_amended_python_indexing_witness :
    Dice.roll { values := [2, 2, 4, 4, 9, 9] } (-1) = ([2, 2, 4, 4, 9, 9] : List Int)[5]? :=
  (C6_amended_python_indexing [2, 2, 4, 4, 9, 9] (-1)).2.1 (by decide) (by decide)

/-- C7: with a committed value drawn with modulus 2 and a valid guess
(a digit string of value at most 1), the user goes first exactly when the
guess equals the committed value and the computer goes first otherwise;
the trace of the step is the published tag, the fixed guess and the
reveal, with no combined-result announcement (no modular combination). -/
theorem C7_first_mover_rule (num key : Nat) (draws : List (Nat × Nat)) (g : String)
    (rest : List String) (hnum : num < 2) (hdig : pyIsDigit g = true)
    (hle : pyParseNat g ≤ 1) :
    ((determine_first_turn ((num, key) :: draws) (g :: rest)).2 = FirstOutcome.userFirst
      ↔ pyParseNat g = num)
    ∧ ((determine_first_turn ((num, key) :: draws) (g :: rest)).2 = FirstOutcome.computerFirst
      ↔ pyParseNat g ≠ num)
    ∧ (determine_first_turn ((num, key) :: draws) (g :: rest)).1 =
        [Event.rangeTagPublished 2 (keyedDigest key (encodeNum num)),
         Event.contributionFixed (pyParseNat g), Event.keyRevealed key num] := by
  have hg2 : ¬ (g = "2") := by
    intro h
    rw [h] at hle
    simp [pyParseNat] at hle
  have hcond : (pyIsDigit g && (pyParseNat g == 0 || pyParseNat g == 1)) = true := by
    rw [hdig]
    simp
    omega
  have hacc : guess_action g = InputAction.accepted (pyParseNat g) := by
    unfold guess_action
    rw [if_neg hg2, if_pos hcond]
  by_cases heq : pyParseNat g = num
  · simp [determine_first_turn, hacc, heq, generate_secure_random]
  · simp [determine_first_turn, hacc, heq, generate_secure_random]

/-- C7 witness: committed value 1, guess 1: the user goes first. -/
theorem C7_first_mover_rule_witness :
    (((determine_first_turn [(1, 0)] ["1"]).2 = FirstOutcome.userFirst)
      ↔ pyParseNat "1" = 1)
    ∧ (((determine_first_turn [(1, 0)] ["1"]).2 = FirstOutcome.computerFirst)
      ↔ pyParseNat "1" ≠ 1)
    ∧ (determine_first_turn [(1, 0)] ["1"]).1 =
        [Event.rangeTagPublished 2 (keyedDigest 0 (encodeNum 1)),
         Event.contributionFixed (pyParseNat "1"), Event.keyRevealed 0 1] :=
  C7_first_mover_rule 1 0 [] "1" [] (by decide) (by decide) (by decide)
